import Mathlib

/-!
Verification of the mfb-remote daemon core (src/main.py).

The development shallowly embeds the program: the `SpeakerAccess` device
handle (session lifecycle, lazy reconnect, power query/write with error
isolation), the `SpeakerThread` debounced playback state machine, and the
`MyController` receiver-status adapter.  External effects are made
explicit: the broadlink sp2 device protocol is a `DeviceProtocol` record
of outcomes, wall-clock time is a natural-number second count passed to
each operation, and a raised exception is an `Except`/`Option` value.
-/

namespace MfbRemote

/-- Constant `TIMEOUT = 60` from the source: the grace period in seconds. -/
def TIMEOUT : Nat := 60

/-- Constant `OFF = False`. -/
def OFF : Bool := false

/-- Constant `ON = True`. -/
def ON : Bool := true

/-- A broadlink sp2 session object, identified abstractly by a number. -/
abbrev Session := Nat

/-- Exception class `SpeakerConnectError`; the two constructors are the two
messages the source raises it with ("Connection error" in `connect`,
"Communication error" in `pvt_set_power_state`). -/
inductive SpeakerConnectError where
  | connectionError
  | communicationError
  deriving DecidableEq, Repr

/-- Behaviour of the external broadlink device protocol (the `sp2`
collaborator of the spec): outcome of session construction (`none` models
a raised error), whether `auth` succeeds on a given session, the outcome
of `check_power` (`none` models a raised I/O error), and whether
`set_power` succeeds (`false` models a raised I/O error). -/
structure DeviceProtocol where
  construct : Option Session
  authOk : Session → Bool
  checkPower : Session → Option Bool
  setPowerOk : Session → Bool

/-- Mutable state of a `SpeakerAccess` handle: its `_sp` field, `none` when
no session is stored. -/
structure SpeakerAccess where
  _sp : Option Session
  deriving DecidableEq, Repr

namespace SpeakerAccess

/-- Method `SpeakerAccess.connect`: `self._sp = sp2(...)` followed by
`self._sp.auth()`, the whole block guarded by a handler that re-raises any
exception as `SpeakerConnectError("Connection error")`.  The assignment to
`_sp` happens before `auth()` runs, so a construction failure leaves `_sp`
unchanged while an authentication failure leaves the freshly constructed
session stored. -/
def connect (dev : DeviceProtocol) (a : SpeakerAccess) :
    SpeakerAccess × Except SpeakerConnectError Unit :=
  match dev.construct with
  | none => (a, Except.error SpeakerConnectError.connectionError)
  | some s =>
    if dev.authOk s then ({ _sp := some s }, Except.ok ())
    else ({ _sp := some s }, Except.error SpeakerConnectError.connectionError)

instance {ε α : Type} [DecidableEq ε] [DecidableEq α] : DecidableEq (Except ε α) := fun x y =>
  match x, y with
  | Except.ok a, Except.ok b =>
    if h : a = b then Decidable.isTrue (congrArg Except.ok h)
    else Decidable.isFalse (fun hc => h (Except.ok.inj hc))
  | Except.ok _, Except.error _ => Decidable.isFalse (fun hc => Except.noConfusion hc)
  | Except.error _, Except.ok _ => Decidable.isFalse (fun hc => Except.noConfusion hc)
  | Except.error e, Except.error f =>
    if h : e = f then Decidable.isTrue (congrArg Except.error h)
    else Decidable.isFalse (fun hc => h (Except.error.inj hc))

/-- Result of one `pvt_set_power_state` / `set_state` call: the updated
handle state, the outcome (an uncaught `SpeakerConnectError` or normal
return), and observational call counts: `connects` counts invocations of
`connect` (via the lazy `sp` property) and `writes` counts invocations of
the underlying `set_power` operation. -/
structure PvtOut where
  access : SpeakerAccess
  result : Except SpeakerConnectError Unit
  connects : Nat
  writes : Nat
  deriving DecidableEq, Repr

/-- Body of the `try` block of `pvt_set_power_state` once the `self.sp`
property has resolved to session `s` (with handle state `a` and `cs`
`connect` calls already made): compare `check_power()` with the target
state and call `set_power` only when they differ; an I/O error in either
operation sets `self._sp = None` and raises
`SpeakerConnectError("Communication error")`. -/
def check_and_set (dev : DeviceProtocol) (a : SpeakerAccess) (s : Session)
    (state : Bool) (cs : Nat) : PvtOut :=
  match dev.checkPower s with
  | none => ⟨{ _sp := none }, Except.error SpeakerConnectError.communicationError, cs, 0⟩
  | some p =>
    if p ≠ state then
      if dev.setPowerOk s then ⟨a, Except.ok (), cs, 1⟩
      else ⟨{ _sp := none }, Except.error SpeakerConnectError.communicationError, cs, 1⟩
    else ⟨a, Except.ok (), cs, 0⟩

/-- Method `SpeakerAccess.pvt_set_power_state`: reads `self.sp`, which
lazily calls `connect()` when `_sp` is null (a `SpeakerConnectError`
raised there is not caught by the `except IOError` handler and
propagates), then runs the compare-and-write body.  The `none` result
models the unreachable path where the property would return a null
session after a successful `connect` (an unhandled attribute error in the
source). -/
def pvt_set_power_state (dev : DeviceProtocol) (a : SpeakerAccess) (state : Bool) :
    Option PvtOut :=
  match a._sp with
  | some s => some (check_and_set dev a s state 0)
  | none =>
    match connect dev a with
    | (a1, Except.error e) => some ⟨a1, Except.error e, 1, 0⟩
    | (a1, Except.ok _) =>
      match a1._sp with
      | some s => some (check_and_set dev a1 s state 1)
      | none => none

/-- Method `SpeakerAccess.set_state`: calls `pvt_set_power_state` and
catches `SpeakerConnectError`, logging a warning instead of re-raising,
so the outcome field is normalised to `ok`. -/
def set_state (dev : DeviceProtocol) (a : SpeakerAccess) (state : Bool) :
    Option PvtOut :=
  match pvt_set_power_state dev a state with
  | none => none
  | some o => some { o with result := Except.ok () }

/-- Constructor `SpeakerAccess.__init__`: starts with `_sp = None`, then
eagerly calls `connect()` inside a handler that catches
`SpeakerConnectError` and only logs a warning. -/
def init (dev : DeviceProtocol) : Option SpeakerAccess :=
  match connect dev { _sp := none } with
  | (a1, Except.ok _) => some a1
  | (a1, Except.error _) => some a1

end SpeakerAccess

/-- A broadcast command of the `SpeakerRemote` group: `switch_on` asserts
power on, `switch_off` asserts power off. -/
inductive Command where
  | switchOn
  | switchOff
  deriving DecidableEq, Repr

/-- Mutable state of the `SpeakerThread` state machine: `_state` (`0` is
the pre-initialization sentinel, then `PLAYING = 1`, `STOPPED = 2`,
`INACTIVE = 3`), `_state_changed` (a UTC timestamp in whole seconds,
`none` before the first real signal), and the `_event` wake flag. -/
structure SpeakerThread where
  _state : Nat
  _state_changed : Option Nat
  _event : Bool
  deriving DecidableEq, Repr

namespace SpeakerThread

/-- Class constant `SpeakerThread.PLAYING = 1`. -/
def PLAYING : Nat := 1

/-- Class constant `SpeakerThread.STOPPED = 2`. -/
def STOPPED : Nat := 2

/-- Class constant `SpeakerThread.INACTIVE = 3`. -/
def INACTIVE : Nat := 3

/-- Constructor `SpeakerThread.__init__`: `_state = 0`,
`_state_changed = None`, event clear. -/
def init : SpeakerThread := ⟨0, none, false⟩

/-- Method `state_changed_seconds_ago`: returns `TIMEOUT + 1` while
`_state_changed` is `None`; otherwise
`(datetime.utcnow() - self._state_changed).seconds`, i.e. the
whole-second difference reduced modulo one day (86400), which is the
`seconds` component of a `timedelta`. -/
def state_changed_seconds_ago (ts : SpeakerThread) (now : Nat) : Nat :=
  match ts._state_changed with
  | none => TIMEOUT + 1
  | some t => (now - t) % 86400

/-- Method `set_state`: when the new state differs from `_state`, store
it, stamp `_state_changed` with the current time and set the wake event;
otherwise do nothing at all. -/
def set_state (ts : SpeakerThread) (state : Nat) (now : Nat) : SpeakerThread :=
  if ts._state ≠ state then
    { _state := state, _state_changed := some now, _event := true }
  else ts

/-- Method `signal_playing`. -/
def signal_playing (ts : SpeakerThread) (now : Nat) : SpeakerThread :=
  set_state ts PLAYING now

/-- Method `signal_stopped`. -/
def signal_stopped (ts : SpeakerThread) (now : Nat) : SpeakerThread :=
  set_state ts STOPPED now

/-- Method `signal_inactive`. -/
def signal_inactive (ts : SpeakerThread) (now : Nat) : SpeakerThread :=
  set_state ts INACTIVE now

/-- State evaluation of one iteration of `SpeakerThread.run`: `PLAYING`
commands `switch_on()`, `INACTIVE` commands `switch_off()`, and any other
state (`STOPPED` or the sentinel) commands `switch_off()` exactly when
`state_changed_seconds_ago() > TIMEOUT`; otherwise no command is issued. -/
def run_action (ts : SpeakerThread) (now : Nat) : Option Command :=
  if ts._state = PLAYING then some Command.switchOn
  else if ts._state = INACTIVE then some Command.switchOff
  else if TIMEOUT < state_changed_seconds_ago ts now then some Command.switchOff
  else none

/-- One full iteration of the `run` loop body evaluated at time `now`
(after the timed wait ends): the event flag is cleared when set, then the
current state decides the command. -/
def run_iteration (ts : SpeakerThread) (now : Nat) : SpeakerThread × Option Command :=
  ({ ts with _event := false }, run_action ts now)

/-- A run of the supervisory loop over a list of poll times with no
intervening signal: iterate `run_iteration` and collect the command (or
absence of one) of every poll. -/
def run_polls (ts : SpeakerThread) : List Nat → List (Option Command)
  | [] => []
  | now :: rest =>
    (run_iteration ts now).2 :: run_polls (run_iteration ts now).1 rest

end SpeakerThread

namespace MyController

/-- Method `MyController.signal_speakers`: derive and forward the signal
from the receiver status flags `is_active` and `is_playing`. -/
def signal_speakers (isActive isPlaying : Bool) (ts : SpeakerThread) (now : Nat) :
    SpeakerThread :=
  if !isActive then SpeakerThread.signal_inactive ts now
  else if isPlaying then SpeakerThread.signal_playing ts now
  else SpeakerThread.signal_stopped ts now

/-- Callback `new_media_status` (the status payload is ignored by the
source). -/
def new_media_status (isActive isPlaying : Bool) (ts : SpeakerThread) (now : Nat) :
    SpeakerThread :=
  signal_speakers isActive isPlaying ts now

/-- Callback `new_cast_status` (the status payload is ignored by the
source). -/
def new_cast_status (isActive isPlaying : Bool) (ts : SpeakerThread) (now : Nat) :
    SpeakerThread :=
  signal_speakers isActive isPlaying ts now

/-- Callback `new_connection_status` (the status payload is ignored by
the source). -/
def new_connection_status (isActive isPlaying : Bool) (ts : SpeakerThread) (now : Nat) :
    SpeakerThread :=
  signal_speakers isActive isPlaying ts now

/-- Spec-side reference definition, written from the spec words, not from
the source: the derived signal is `Inactive` if the receiver session is
not active; else `Playing` if media is actively playing; else `Stopped`. -/
def specDerivedSignal (isActive isPlaying : Bool) : Nat :=
  if !isActive then SpeakerThread.INACTIVE
  else if isPlaying then SpeakerThread.PLAYING
  else SpeakerThread.STOPPED

end MyController

/-! Theorems -/

/-- Helper: in the `STOPPED` state with change timestamp `T`, a poll at
time `now` less than a day after `T` commands `switch_off` exactly when
more than `TIMEOUT` whole seconds have elapsed. -/
lemma run_action_stopped (T now : Nat) (e : Bool) (h2 : now - T < 86400) :
    SpeakerThread.run_action ⟨SpeakerThread.STOPPED, some T, e⟩ now =
      if TIMEOUT < now - T then some Command.switchOff else none := by
  simp only [SpeakerThread.run_action, SpeakerThread.state_changed_seconds_ago,
    SpeakerThread.PLAYING, SpeakerThread.STOPPED, SpeakerThread.INACTIVE]
  simp only [Nat.mod_eq_of_lt h2]
  norm_num

/-- C1 (counterexample): with `STOPPED` signaled at time `T = 0`, the
first poll evaluated at `T + 60` seconds — at, not after, the claimed
boundary — issues no `switch_off`, because the source fires only when the
elapsed time strictly exceeds `TIMEOUT`. -/
theorem c1_counterexample :
    SpeakerThread.run_polls ⟨SpeakerThread.STOPPED, some 0, false⟩ [60] = [none] := by
  decide

/-- C1 (amended): in a run with `STOPPED` entered at time `T` and no
further signal, with every poll within a day of `T`, a poll commands
`switch_off` exactly when strictly more than 60 whole seconds have
elapsed (so never at or before `T + 60` seconds, and on every poll from
`T + 61` seconds on). -/
theorem c1_stopped_debounce (T : Nat) (e : Bool) (times : List Nat)
    (h : ∀ t ∈ times, T ≤ t ∧ t - T < 86400) :
    SpeakerThread.run_polls ⟨SpeakerThread.STOPPED, some T, e⟩ times =
      times.map (fun now => if TIMEOUT < now - T then some Command.switchOff else none) := by
  induction times generalizing e with
  | nil => rfl
  | cons t rest ih =>
    have ht := h t (List.mem_cons_self t rest)
    simp only [SpeakerThread.run_polls, SpeakerThread.run_iteration, List.map]
    rw [run_action_stopped T t e ht.2]
    exact congrArg _ (ih false (fun x hx => h x (List.mem_cons_of_mem _ hx)))

/-- C1 (witness): `STOPPED` at `T = 0`; a poll at 30 seconds stays quiet
and a poll at 61 seconds commands `switch_off`. -/
theorem c1_witness :
    SpeakerThread.run_polls ⟨SpeakerThread.STOPPED, some 0, false⟩ [30, 61] =
      [none, some Command.switchOff] := by
  rw [c1_stopped_debounce 0 false [30, 61] (by decide)]
  decide

/-- C3: a signal that differs from the current state updates the state,
stamps the change time and sets the wake event; a signal equal to the
current state is a complete no-op (state, timestamp and event all
unchanged), so repeating the same signal performs the update at most
once. -/
theorem c3_signal_idempotent (m : SpeakerThread) (s t u : Nat) (c : Option Nat)
    (ev : Bool) (h : m._state ≠ s) :
    SpeakerThread.set_state m s t = ⟨s, some t, true⟩ ∧
    SpeakerThread.set_state ⟨s, c, ev⟩ s u = ⟨s, c, ev⟩ ∧
    SpeakerThread.set_state (SpeakerThread.set_state m s t) s u =
      SpeakerThread.set_state m s t := by
  refine ⟨?_, ?_, ?_⟩
  · simp [SpeakerThread.set_state, h]
  · simp [SpeakerThread.set_state]
  · simp [SpeakerThread.set_state, h]

/-- C3 (witness): from the initial machine, signaling `PLAYING` at time 5
performs the update and wake; repeating it at time 9 changes nothing. -/
theorem c3_witness :
    SpeakerThread.set_state SpeakerThread.init SpeakerThread.PLAYING 5 =
        ⟨SpeakerThread.PLAYING, some 5, true⟩ ∧
      SpeakerThread.set_state ⟨SpeakerThread.PLAYING, some 2, true⟩
          SpeakerThread.PLAYING 9 =
        ⟨SpeakerThread.PLAYING, some 2, true⟩ ∧
      SpeakerThread.set_state
          (SpeakerThread.set_state SpeakerThread.init SpeakerThread.PLAYING 5)
          SpeakerThread.PLAYING 9 =
        SpeakerThread.set_state SpeakerThread.init SpeakerThread.PLAYING 5 :=
  c3_signal_idempotent SpeakerThread.init SpeakerThread.PLAYING 5 9 (some 2) true
    (by decide)

/-- C7: before any real signal (change timestamp unset), the elapsed-time
query answers strictly more than the grace period, so a poll in the
sentinel state resolves to `switch_off`; and signaling `INACTIVE` from
the cold-start state sets the wake event and the next poll commands
`switch_off` immediately. -/
theorem c7_cold_start (now u : Nat) :
    TIMEOUT < SpeakerThread.state_changed_seconds_ago SpeakerThread.init now ∧
    SpeakerThread.run_action SpeakerThread.init now = some Command.switchOff ∧
    (SpeakerThread.set_state SpeakerThread.init SpeakerThread.INACTIVE now)._event = true ∧
    SpeakerThread.run_action
        (SpeakerThread.set_state SpeakerThread.init SpeakerThread.INACTIVE now) u =
      some Command.switchOff := by
  refine ⟨?_, ?_, ?_, ?_⟩
  · simp [SpeakerThread.state_changed_seconds_ago, SpeakerThread.init, TIMEOUT]
  · simp [SpeakerThread.run_action, SpeakerThread.state_changed_seconds_ago,
      SpeakerThread.init, SpeakerThread.PLAYING, SpeakerThread.INACTIVE, TIMEOUT]
  · simp [SpeakerThread.set_state, SpeakerThread.init, SpeakerThread.INACTIVE]
  · simp [SpeakerThread.set_state, SpeakerThread.init, SpeakerThread.run_action,
      SpeakerThread.PLAYING, SpeakerThread.INACTIVE]

/-- C9: on any poll, `PLAYING` commands `switch_on` and `INACTIVE`
commands `switch_off`, whatever the change timestamp, the wake flag and
the poll time — no elapsed-time condition is consulted. -/
theorem c9_unconditional (c : Option Nat) (ev : Bool) (now : Nat) :
    SpeakerThread.run_action ⟨SpeakerThread.PLAYING, c, ev⟩ now = some Command.switchOn ∧
    SpeakerThread.run_action ⟨SpeakerThread.INACTIVE, c, ev⟩ now = some Command.switchOff := by
  constructor <;>
    simp [SpeakerThread.run_action, SpeakerThread.PLAYING, SpeakerThread.INACTIVE]

/-- C8: each of the three receiver callbacks applies to the state machine
exactly the signal described by the spec formula (`INACTIVE` if the
session is not active, else `PLAYING` if media plays, else `STOPPED`), so
all three emit the same single derived signal. -/
theorem c8_callbacks_derive_signal (isActive isPlaying : Bool) (ts : SpeakerThread)
    (now : Nat) :
    MyController.new_media_status isActive isPlaying ts now =
        SpeakerThread.set_state ts (MyController.specDerivedSignal isActive isPlaying) now ∧
    MyController.new_cast_status isActive isPlaying ts now =
        SpeakerThread.set_state ts (MyController.specDerivedSignal isActive isPlaying) now ∧
    MyController.new_connection_status isActive isPlaying ts now =
        SpeakerThread.set_state ts (MyController.specDerivedSignal isActive isPlaying) now := by
  cases isActive <;> cases isPlaying <;>
    simp [MyController.new_media_status, MyController.new_cast_status,
      MyController.new_connection_status, MyController.signal_speakers,
      MyController.specDerivedSignal, SpeakerThread.signal_inactive,
      SpeakerThread.signal_playing, SpeakerThread.signal_stopped]

/-- Helper: `pvt_set_power_state` always returns a result (the null-session
arm after a successful `connect` is unreachable, since a successful
`connect` always stores a session). -/
lemma pvt_isSome (dev : DeviceProtocol) (a : SpeakerAccess) (st : Bool) :
    (SpeakerAccess.pvt_set_power_state dev a st).isSome = true := by
  rcases a with ⟨_ | s⟩
  · cases hc : dev.construct with
    | none =>
      simp [SpeakerAccess.pvt_set_power_state, SpeakerAccess.connect, hc]
    | some s =>
      cases ha : dev.authOk s with
      | true =>
        simp [SpeakerAccess.pvt_set_power_state, SpeakerAccess.connect, hc, ha]
      | false =>
        simp [SpeakerAccess.pvt_set_power_state, SpeakerAccess.connect, hc, ha]
  · simp [SpeakerAccess.pvt_set_power_state]

/-- C4: `set_state` returns normally for every device behaviour, handle
state and target power state: every device-session error (connect
failure, auth rejection, read or write I/O failure) is caught inside the
handle and never reaches the caller. -/
theorem c4_set_state_never_raises (dev : DeviceProtocol) (a : SpeakerAccess) (st : Bool) :
    ∃ o : SpeakerAccess.PvtOut,
      SpeakerAccess.set_state dev a st = some o ∧ o.result = Except.ok () := by
  obtain ⟨o, ho⟩ := Option.isSome_iff_exists.mp (pvt_isSome dev a st)
  exact ⟨{ o with result := Except.ok () }, by simp [SpeakerAccess.set_state, ho], rfl⟩

/-- C5: when the power-state query succeeds and already reports the
desired state, `set_state` issues zero writes — both on a handle with a
live session and on a handle that first reconnects lazily. -/
theorem c5_no_redundant_write (dev : DeviceProtocol) (a b : SpeakerAccess) (s : Session)
    (st : Bool) (h1 : a._sp = some s) (h2 : dev.checkPower s = some st)
    (h3 : b._sp = none) (h4 : dev.construct = some s) (h5 : dev.authOk s = true) :
    SpeakerAccess.set_state dev a st = some ⟨a, Except.ok (), 0, 0⟩ ∧
    SpeakerAccess.set_state dev b st = some ⟨{ _sp := some s }, Except.ok (), 1, 0⟩ := by
  constructor
  · rcases a with ⟨sp⟩
    cases h1
    simp [SpeakerAccess.set_state, SpeakerAccess.pvt_set_power_state,
      SpeakerAccess.check_and_set, h2]
  · rcases b with ⟨sp⟩
    cases h3
    simp [SpeakerAccess.set_state, SpeakerAccess.pvt_set_power_state,
      SpeakerAccess.connect, SpeakerAccess.check_and_set, h2, h4, h5]

/-- C5 (witness): a device reporting power already on receives no write,
with a stored session (zero connects) and after a lazy reconnect (one
connect). -/
theorem c5_witness :
    SpeakerAccess.set_state ⟨some 3, fun _ => true, fun _ => some true, fun _ => true⟩
        { _sp := some 3 } true =
      some ⟨{ _sp := some 3 }, Except.ok (), 0, 0⟩ ∧
    SpeakerAccess.set_state ⟨some 3, fun _ => true, fun _ => some true, fun _ => true⟩
        { _sp := none } true =
      some ⟨{ _sp := some 3 }, Except.ok (), 1, 0⟩ :=
  c5_no_redundant_write ⟨some 3, fun _ => true, fun _ => some true, fun _ => true⟩
    { _sp := some 3 } { _sp := none } 3 true rfl rfl rfl rfl rfl

/-- C6: an I/O failure in the power read (session `s1`) or in the power
write (session `s2`) sets the stored session to null and raises
`SpeakerConnectError("Communication error")`; and a call on a handle
whose session is null performs exactly one fresh `connect` attempt. -/
theorem c6_io_failure_discards_session (dev : DeviceProtocol) (s1 s2 : Session)
    (st p : Bool) (h1 : dev.checkPower s1 = none) (h2 : dev.checkPower s2 = some p)
    (hp : p ≠ st) (h3 : dev.setPowerOk s2 = false) :
    SpeakerAccess.pvt_set_power_state dev { _sp := some s1 } st =
        some ⟨{ _sp := none }, Except.error SpeakerConnectError.communicationError, 0, 0⟩ ∧
    SpeakerAccess.pvt_set_power_state dev { _sp := some s2 } st =
        some ⟨{ _sp := none }, Except.error SpeakerConnectError.communicationError, 0, 1⟩ ∧
    (SpeakerAccess.pvt_set_power_state dev { _sp := none } st).map
        SpeakerAccess.PvtOut.connects =
      some 1 := by
  refine ⟨?_, ?_, ?_⟩
  · simp [SpeakerAccess.pvt_set_power_state, SpeakerAccess.check_and_set, h1]
  · simp [SpeakerAccess.pvt_set_power_state, SpeakerAccess.check_and_set, h2, hp, h3]
  · cases hc : dev.construct with
    | none =>
      simp [SpeakerAccess.pvt_set_power_state, SpeakerAccess.connect, hc]
    | some s =>
      cases ha : dev.authOk s with
      | true =>
        cases hq : dev.checkPower s with
        | none =>
          simp [SpeakerAccess.pvt_set_power_state, SpeakerAccess.connect,
            SpeakerAccess.check_and_set, hc, ha, hq]
        | some q =>
          by_cases hqs : q = st
          · simp [SpeakerAccess.pvt_set_power_state, SpeakerAccess.connect,
              SpeakerAccess.check_and_set, hc, ha, hq, hqs]
          · cases hw : dev.setPowerOk s with
            | true =>
              simp [SpeakerAccess.pvt_set_power_state, SpeakerAccess.connect,
                SpeakerAccess.check_and_set, hc, ha, hq, hqs, hw]
            | false =>
              simp [SpeakerAccess.pvt_set_power_state, SpeakerAccess.connect,
                SpeakerAccess.check_and_set, hc, ha, hq, hqs, hw]
      | false =>
        simp [SpeakerAccess.pvt_set_power_state, SpeakerAccess.connect, hc, ha]

/-- C6 (witness): session 1 fails the read, session 2 fails the write;
both discard the session and raise; a null-session handle connects once. -/
theorem c6_witness :
    SpeakerAccess.pvt_set_power_state
        ⟨some 0, fun _ => true, fun s => if s = 1 then none else some true,
          fun _ => false⟩
        { _sp := some 1 } false =
      some ⟨{ _sp := none }, Except.error SpeakerConnectError.communicationError, 0, 0⟩ ∧
    SpeakerAccess.pvt_set_power_state
        ⟨some 0, fun _ => true, fun s => if s = 1 then none else some true,
          fun _ => false⟩
        { _sp := some 2 } false =
      some ⟨{ _sp := none }, Except.error SpeakerConnectError.communicationError, 0, 1⟩ ∧
    (SpeakerAccess.pvt_set_power_state
          ⟨some 0, fun _ => true, fun s => if s = 1 then none else some true,
            fun _ => false⟩
          { _sp := none } false).map
        SpeakerAccess.PvtOut.connects =
      some 1 :=
  c6_io_failure_discards_session
    ⟨some 0, fun _ => true, fun s => if s = 1 then none else some true, fun _ => false⟩
    1 2 false true rfl rfl (by decide) rfl

/-- C2 (counterexample): with a device whose session construction
succeeds but whose authentication is rejected, `connect` raises
`SpeakerConnectError` yet the stored session is the freshly constructed
session, not null; a subsequent `set_state` on that handle performs zero
fresh `connect` attempts, reusing the stale session. -/
theorem c2_counterexample :
    SpeakerAccess.connect ⟨some 7, fun _ => false, fun _ => none, fun _ => false⟩
        { _sp := none } =
      ({ _sp := some 7 }, Except.error SpeakerConnectError.connectionError) ∧
    ({ _sp := some 7 } : SpeakerAccess)._sp ≠ none ∧
    (SpeakerAccess.set_state ⟨some 7, fun _ => false, fun _ => none, fun _ => false⟩
          { _sp := some 7 } true).map
        SpeakerAccess.PvtOut.connects =
      some 0 :=
  ⟨rfl, by decide, rfl⟩

/-- C2 (amended): every failing `connect` raises `SpeakerConnectError`;
the stored session is left unchanged only when session construction
itself fails, while an authentication rejection leaves the freshly
constructed, unauthenticated session stored — so a subsequent `set_state`
on such a handle reuses that session and performs no fresh `connect`
attempt. -/
theorem c2_connect_failure_session (dev1 dev2 dev3 : DeviceProtocol) (a : SpeakerAccess)
    (s : Session) (st : Bool) (h1 : dev1.construct = none)
    (h2 : dev2.construct = some s) (h3 : dev2.authOk s = false) :
    SpeakerAccess.connect dev1 a = (a, Except.error SpeakerConnectError.connectionError) ∧
    SpeakerAccess.connect dev2 a =
      ({ _sp := some s }, Except.error SpeakerConnectError.connectionError) ∧
    (SpeakerAccess.set_state dev3 { _sp := some s } st).map
        SpeakerAccess.PvtOut.connects =
      some 0 := by
  refine ⟨?_, ?_, ?_⟩
  · simp [SpeakerAccess.connect, h1]
  · simp [SpeakerAccess.connect, h2, h3]
  · cases hq : dev3.checkPower s with
    | none =>
      simp [SpeakerAccess.set_state, SpeakerAccess.pvt_set_power_state,
        SpeakerAccess.check_and_set, hq]
    | some q =>
      by_cases hqs : q = st
      · simp [SpeakerAccess.set_state, SpeakerAccess.pvt_set_power_state,
          SpeakerAccess.check_and_set, hq, hqs]
      · cases hw : dev3.setPowerOk s with
        | true =>
          simp [SpeakerAccess.set_state, SpeakerAccess.pvt_set_power_state,
            SpeakerAccess.check_and_set, hq, hqs, hw]
        | false =>
          simp [SpeakerAccess.set_state, SpeakerAccess.pvt_set_power_state,
            SpeakerAccess.check_and_set, hq, hqs, hw]

/-- C2 (witness): one device whose construction fails leaves the handle
unchanged; one whose authentication fails stores the stale session, and a
later `set_state` on it makes no connect attempt. -/
theorem c2_witness :
    SpeakerAccess.connect ⟨none, fun _ => true, fun _ => none, fun _ => true⟩
        { _sp := none } =
      ({ _sp := none }, Except.error SpeakerConnectError.connectionError) ∧
    SpeakerAccess.connect ⟨some 7, fun _ => false, fun _ => none, fun _ => false⟩
        { _sp := none } =
      ({ _sp := some 7 }, Except.error SpeakerConnectError.connectionError) ∧
    (SpeakerAccess.set_state ⟨some 7, fun _ => false, fun _ => none, fun _ => false⟩
          { _sp := some 7 } true).map
        SpeakerAccess.PvtOut.connects =
      some 0 :=
  c2_connect_failure_session ⟨none, fun _ => true, fun _ => none, fun _ => true⟩
    ⟨some 7, fun _ => false, fun _ => none, fun _ => false⟩
    ⟨some 7, fun _ => false, fun _ => none, fun _ => false⟩
    { _sp := none } 7 true rfl rfl rfl

/-- C10: constructing a handle performs one eager `connect` attempt and
never raises: the handle is always created, ending in the post-`connect`
state — with no session when construction fails, and with the constructed
session stored whether or not authentication succeeded. -/
theorem c10_init_eager_connect (dev dev1 dev2 : DeviceProtocol) (s : Session)
    (h1 : dev1.construct = none) (h2 : dev2.construct = some s) :
    SpeakerAccess.init dev = some (SpeakerAccess.connect dev { _sp := none }).1 ∧
    SpeakerAccess.init dev1 = some { _sp := none } ∧
    SpeakerAccess.init dev2 = some { _sp := some s } := by
  refine ⟨?_, ?_, ?_⟩
  · rcases h : SpeakerAccess.connect dev { _sp := none } with ⟨a1, r⟩
    cases r with
    | ok u => simp [SpeakerAccess.init, h]
    | error e => simp [SpeakerAccess.init, h]
  · simp [SpeakerAccess.init, SpeakerAccess.connect, h1]
  · cases ha : dev2.authOk s with
    | true => simp [SpeakerAccess.init, SpeakerAccess.connect, h2, ha]
    | false => simp [SpeakerAccess.init, SpeakerAccess.connect, h2, ha]

/-- C10 (witness): a handle is created both for a device whose session
construction fails and for one whose authentication fails. -/
theorem c10_witness :
    SpeakerAccess.init ⟨none, fun _ => true, fun _ => none, fun _ => true⟩ =
      some (SpeakerAccess.connect ⟨none, fun _ => true, fun _ => none, fun _ => true⟩
          { _sp := none }).1 ∧
    SpeakerAccess.init ⟨none, fun _ => true, fun _ => none, fun _ => true⟩ =
      some { _sp := none } ∧
    SpeakerAccess.init ⟨some 7, fun _ => false, fun _ => none, fun _ => false⟩ =
      some { _sp := some 7 } :=
  c10_init_eager_connect ⟨none, fun _ => true, fun _ => none, fun _ => true⟩
    ⟨none, fun _ => true, fun _ => none, fun _ => true⟩
    ⟨some 7, fun _ => false, fun _ => none, fun _ => false⟩
    7 rfl rfl

end MfbRemote
